import Mathlib

/-!
Verification of the `go_logger` repository (package `logger`, file `logger.go`)
against its natural-language specification.

The Go source is shallowly embedded below.  The package keeps one global,
process-wide state: the four level loggers (`Debug`, `Info`, `Warning`,
`Error`), the rotation state (`dateStr` and its lock-free snapshot
`dateFast`), the one-shot configuration cell (`dirPathValue`,
`locationValue`, `writersValue` guarded by `sync.Once` latches and the
`started` freeze flag), and the stderr diagnostics emitted by `log.Println`.
All of that is gathered in the structure `St`; every public operation of the
package becomes a function on `St`.

Modelling conventions:
- The embedding is sequential: each Go function is one atomic state
  transition (the claims under verification are all about the sequential
  state machine, not about interleavings).
- `time.Now().In(loc)` is an input: operations that read the clock take a
  `DateTime` argument, understood as the wall-clock instant already converted
  to the configured location.
- `os.MkdirAll` success and `os.OpenFile` success are environment inputs,
  passed as `Bool` arguments.
- `time.LoadLocation` (the system timezone database) is an environment
  input, passed as a `String → Option Loc` function.
- A call to `log.Fatalln` (which prints a diagnostic and exits the process
  with a non-zero status) is modelled as `Except.error msg`; a normal return
  is `Except.ok`.
- `io.Writer` values are opaque: they are modelled by identity tokens
  (`Nat`).  Arguments given to `Println` are modelled by their `fmt` default
  string rendering, so `v ...interface{}` becomes `List String`.
-/

namespace GoLogger

/-- Log levels, from `logLevel` and the constants `levelDebug` / `levelInfo`
/ `levelWarning` / `levelError` in logger.go. -/
inductive LogLevel where
  | debug
  | info
  | warning
  | error
deriving DecidableEq

/-- A `*time.Location`.  `time.FixedZone(name, offset)` produces a location
with the given name and fixed offset in seconds; a location loaded from the
timezone database is likewise identified by its name and the data behind it
(abstracted by the offset field). -/
structure Loc where
  name : String
  offsetSec : Int
deriving DecidableEq

/-- Embeds Go `time.FixedZone`. -/
def fixedZone (name : String) (offsetSec : Int) : Loc :=
  { name := name, offsetSec := offsetSec }

/-- A wall-clock instant as observed in the configured location (the result
of `time.Now().In(loc)`), decomposed the way the `time.Time.Format` layouts
used by logger.go consume it. -/
structure DateTime where
  year : Nat
  month : Nat
  day : Nat
  hour : Nat
  minute : Nat
  sec : Nat
  micro : Nat
deriving DecidableEq

/-- Zero-pads the decimal rendering of `n` to width `w`; this is how the Go
layout fragments `2006`, `01`, `02`, `15`, `04`, `05` and `.000000` render
their fields. -/
def padTo (w : Nat) (n : Nat) : String :=
  let s := toString n
  String.mk (List.replicate (w - s.length) '0') ++ s

/-- Embeds `t.Format("2006-01-02")`, the day key used for rotation
(`init`, `createLogger`, `SetTimezone`, `rotateIfNeeded`). -/
def formatDateKey (t : DateTime) : String :=
  padTo 4 t.year ++ "-" ++ padTo 2 t.month ++ "-" ++ padTo 2 t.day

/-- Embeds `timePrefix` (logger.go line 436): the timestamp put in front of
every line.  The source uses the layout string `2006/01/02 15:04:05.000000`,
so the date part is rendered with slashes. -/
def timePrefixStr (t : DateTime) : String :=
  padTo 4 t.year ++ "/" ++ padTo 2 t.month ++ "/" ++ padTo 2 t.day ++ " " ++
    padTo 2 t.hour ++ ":" ++ padTo 2 t.minute ++ ":" ++ padTo 2 t.sec ++ "." ++
    padTo 6 t.micro

/-- Embeds `levelString` (logger.go line 441).  The Go `default: "UNKNOWN"`
arm is unreachable for the four declared levels and `LogLevel` is exactly
those four, so it has no counterpart here. -/
def levelString : LogLevel → String
  | .debug => "DEBUG"
  | .info => "INFO"
  | .warning => "WARNING"
  | .error => "ERROR"

/-- The lowercase file-name component of each level, from the literals
`".debug.log"` ... `".error.log"` built in `rotateLocked`. -/
def levelFileKey : LogLevel → String
  | .debug => "debug"
  | .info => "info"
  | .warning => "warning"
  | .error => "error"

/-! ### `path/filepath` lexical path cleaning

`SetDir` stores `filepath.Clean(path)` and `rotateLocked` builds file names
with `filepath.Join(dirPath, name)` = `Clean(dirPath + "/" + name)`.
`Clean` is a purely lexical algorithm on `/`-separated segments; it is
embedded below over `List Char`. -/

/-- Splits a character list on `'/'` (the segment decomposition `Clean`
works with).  `splitSlash cs` always returns a non-empty list of segments;
e.g. `splitSlash "a//b" = ["a", "", "b"]`. -/
def splitSlash : List Char → List (List Char)
  | [] => [[]]
  | c :: cs =>
    if c = '/' then [] :: splitSlash cs
    else
      match splitSlash cs with
      | [] => [[c]]
      | seg :: rest => (c :: seg) :: rest

/-- Joins segments back with `'/'`. -/
def joinSegs : List (List Char) → List Char
  | [] => []
  | [s] => s
  | s :: rest => s ++ '/' :: joinSegs rest

/-- One step of `filepath.Clean`: drop empty and `.` segments, resolve `..`
against the already-accepted segments (kept in reverse order in `acc`),
erasing `..` at the root and keeping it when not rooted. -/
def cleanStepSeg (rooted : Bool) (acc : List (List Char)) (seg : List Char) :
    List (List Char) :=
  if seg = [] ∨ seg = ['.'] then acc
  else if seg = ['.', '.'] then
    match acc with
    | [] => if rooted then [] else [['.', '.']]
    | a :: rest => if a = ['.', '.'] then seg :: a :: rest else rest
  else seg :: acc

/-- `true` iff the path starts with a slash (`filepath.IsAbs` for the
slash-separated paths this package manipulates). -/
def isRooted : List Char → Bool
  | '/' :: _ => true
  | _ => false

/-- The cleaned segment sequence of a path: fold `cleanStepSeg` over its
segments (the accumulator is reversed). -/
def cleanedSegs (rooted : Bool) (cs : List Char) : List (List Char) :=
  ((splitSlash cs).foldl (cleanStepSeg rooted) []).reverse

/-- `filepath.Clean` on a character list: clean the segments, rejoin them,
re-apply the leading slash of a rooted path, and return `"."` when nothing
remains of a relative path. -/
def cleanPathChars (cs : List Char) : List Char :=
  if cs = [] then ['.']
  else if isRooted cs then '/' :: joinSegs (cleanedSegs true cs)
  else if joinSegs (cleanedSegs false cs) = [] then ['.']
  else joinSegs (cleanedSegs false cs)

/-- Embeds Go `filepath.Clean` (on slash-separated paths, the only kind this
package manipulates). -/
def cleanPath (s : String) : String :=
  String.mk (cleanPathChars s.data)

/-- Embeds Go `filepath.Join(dir, name)` for two elements: empty elements
are skipped and the slash-join of the remaining ones is `Clean`ed; the join
of two empty strings is the empty string. -/
def goJoin (dir name : String) : String :=
  if dir = "" then
    if name = "" then "" else cleanPath name
  else cleanPath (dir ++ "/" ++ name)

/-! ### The global state -/

/-- One per-level log sink: the `logger` struct of logger.go.
`loggerInit` models `l.logger != nil`, `fileOpen` models `l.file != nil`,
`fileName` is `l.fileName`.  The level is implicit in which `St` field the
sink occupies, and `l.mu` needs no counterpart in the sequential model. -/
structure Sink where
  loggerInit : Bool
  fileOpen : Bool
  fileName : String
deriving DecidableEq

/-- Embeds `newLogger` / `newErrorLogger`: a sink with no open handle and no
initialized writer. -/
def newLogger (fileName : String) : Sink :=
  { loggerInit := false, fileOpen := false, fileName := fileName }

/-- The whole package-level state of logger.go: the freeze flag `started`,
the three `sync.Once` latches, the three configuration cells, the rotation
state (`dateStr` and its atomic snapshot `dateFast`), the four level sinks,
and the diagnostics printed to the default error stream by `log.Println`. -/
structure St where
  started : Bool
  tzOnceDone : Bool
  writerOnceDone : Bool
  dirOnceDone : Bool
  dirPath : String
  loc : Loc
  writers : List Nat
  dateStr : String
  dateFast : String
  debug : Sink
  info : Sink
  warning : Sink
  error : Sink
  stderrLog : List String
deriving DecidableEq

/-- Selects the package-level logger of a level (`Debug` / `Info` /
`Warning` / `Error`). -/
def sinkOf (st : St) : LogLevel → Sink
  | .debug => st.debug
  | .info => st.info
  | .warning => st.warning
  | .error => st.error

/-- Stores back the logger of a level. -/
def setSinkOf (st : St) (lvl : LogLevel) (s : Sink) : St :=
  match lvl with
  | .debug => { st with debug := s }
  | .info => { st with info := s }
  | .warning => { st with warning := s }
  | .error => { st with error := s }

/-- Embeds `logger.setFileName` (logger.go line 509): if the name is
unchanged, do nothing; otherwise close an open handle (clearing both the
file and the inner `log.Logger`) and store the new name. -/
def sinkSetFileName (s : Sink) (fileName : String) : Sink :=
  if s.fileName = fileName then s
  else if s.fileOpen then
    { loggerInit := false, fileOpen := false, fileName := fileName }
  else { s with fileName := fileName }

/-- Embeds `rotateLocked` (logger.go line 250): store the new day key in
`dateStr` and `dateFast`, rebuild the four per-level file names from the
configured directory, and point each sink at its new name (closing stale
handles via `setFileName`).  The `Debug == nil` arms of the Go code only
fire during `init`, where they build the same sinks `newLogger` would;
in the model the sinks always exist. -/
def rotateLocked (st : St) (date : String) : St :=
  { st with
    dateStr := date
    dateFast := date
    debug := sinkSetFileName st.debug (goJoin st.dirPath (date ++ ".debug.log"))
    info := sinkSetFileName st.info (goJoin st.dirPath (date ++ ".info.log"))
    warning := sinkSetFileName st.warning (goJoin st.dirPath (date ++ ".warning.log"))
    error := sinkSetFileName st.error (goJoin st.dirPath (date ++ ".error.log")) }

/-- Embeds `rotate` (logger.go line 393): take the rotation lock and rotate
unconditionally. -/
def rotate (st : St) (date : String) : St :=
  rotateLocked st date

/-- Embeds `rotateIfDateChanged` (logger.go line 401): under the rotation
lock, rotate only if the day key really changed. -/
def rotateIfDateChanged (st : St) (date : String) : St :=
  if st.dateStr ≠ date then rotateLocked st date else st

/-- Embeds `rotateIfNeeded` (logger.go line 412): lock-free fast path on the
`dateFast` snapshot, then the double-checked slow path; `formatDateKey now`
is the local `date` variable of the source. -/
def rotateIfNeeded (st : St) (now : DateTime) : St :=
  if st.dateFast = formatDateKey now then st
  else rotateIfDateChanged st (formatDateKey now)

/-- Embeds `freezeConfig` (logger.go line 425): early return when already
started, otherwise set `started` under the configuration lock. -/
def freezeConfig (st : St) : St :=
  if st.started then st else { st with started := true }

/-- Embeds `init` (logger.go line 229): empty directory, fixed Shanghai
zone (UTC+8), no extra writers, then one unconditional rotation at the
current day key. -/
def initialState (now : DateTime) : St :=
  rotate
    { started := false, tzOnceDone := false, writerOnceDone := false
      dirOnceDone := false, dirPath := ""
      loc := fixedZone "Asia/Shanghai" (8 * 3600)
      writers := [], dateStr := "", dateFast := ""
      debug := newLogger "", info := newLogger ""
      warning := newLogger "", error := newLogger ""
      stderrLog := [] }
    (formatDateKey now)

/-! ### Configuration operations -/

/-- The `log.Fatalln("加载时区失败：", name, err)` diagnostic of
`SetTimezone`; `log.Fatalln` space-joins its operands (the `err` text is
environment-dependent and elided). -/
def tzFailMsg (name : String) : String :=
  "加载时区失败： " ++ name

/-- The `log.Println("创建日志目录失败，降级为当前目录写日志：", cleaned, err)`
diagnostic of `SetDir` (the `err` text is environment-dependent and
elided). -/
def dirFailMsg (cleaned : String) : String :=
  "创建日志目录失败，降级为当前目录写日志： " ++ cleaned

/-- Embeds `SetTimezone` (logger.go line 291).  `ld` is the system timezone
database (`time.LoadLocation`); `now` is `time.Now().In(loc)` for the newly
stored location.  The literal name `"Asia/Shanghai"` takes the fixed-zone
arm and never consults `ld`.  An invalid name hits `log.Fatalln`, modelled
as `Except.error`.  The two `started` checks of the source (before and
after taking `configMu`) collapse into one in the sequential model, and the
`sync.Once` latch is `tzOnceDone`. -/
def setTimezone (ld : String → Option Loc) (name : String) (now : DateTime)
    (st : St) : Except String St :=
  if name = "" then .ok st
  else if st.started then .ok st
  else if st.tzOnceDone then .ok st
  else if name = "Asia/Shanghai" then
    .ok (rotate
      { st with tzOnceDone := true, loc := fixedZone "Asia/Shanghai" (8 * 3600) }
      (formatDateKey now))
  else
    match ld name with
    | none => .error (tzFailMsg name)
    | some loaded =>
      .ok (rotate { st with tzOnceDone := true, loc := loaded }
        (formatDateKey now))

/-- Embeds `AppendWriter` (logger.go line 329).  The defensive slice copy is
the identity on Lean lists. -/
def appendWriter (ws : List Nat) (st : St) : St :=
  if ws = [] then st
  else if st.started then st
  else if st.writerOnceDone then st
  else { st with writerOnceDone := true, writers := ws }

/-- Embeds `SetDir` (logger.go line 357).  `mkdirOk` is the outcome of
`os.MkdirAll(cleaned, os.ModePerm)`; on failure the function prints a
diagnostic and returns with the `sync.Once` latch consumed but the
directory unchanged; on success it stores the cleaned path and forces an
unconditional rotation (`createLogger`, which is `rotate` at the current
day key). -/
def setDir (mkdirOk : Bool) (path : String) (now : DateTime) (st : St) : St :=
  if path = "" then st
  else if st.started then st
  else if st.dirOnceDone then st
  else
    if mkdirOk then
      rotate { st with dirOnceDone := true, dirPath := cleanPath path }
        (formatDateKey now)
    else
      { st with dirOnceDone := true
                stderrLog := st.stderrLog ++ [dirFailMsg (cleanPath path)] }

/-! ### Write operations -/

/-- The `log.Fatalln("打开日志文件失败：", err)` diagnostic of
`ensureLoggerLocked` (the `err` text is environment-dependent and
elided). -/
def openFailMsg : String :=
  "打开日志文件失败："

/-- Embeds `logger.ensureLoggerLocked` (logger.go line 492): if no inner
`log.Logger` exists yet, lazily open the file (append mode); a failed open
is `log.Fatalln`, a successful one records the handle and builds the
multi-writer logger. -/
def ensureLogger (openOk : Bool) (s : Sink) : Except String Sink :=
  if s.loggerInit then .ok s
  else if openOk then .ok { s with fileOpen := true, loggerInit := true }
  else .error openFailMsg

/-- `fmt.Sprintln` on operands already rendered as strings: space-join and
one trailing newline.  `log.Logger.Output` appends nothing more because the
message already ends in a newline. -/
def sprintlnJoin (parts : List String) : String :=
  String.intercalate " " parts ++ "\n"

/-- `true` iff the last byte of `s` is a newline — the check
`len(s) == 0 || s[len(s)-1] != '\n'` that `log.Logger.Output` performs
before appending a terminating newline. -/
def lastIsNL (s : String) : Bool :=
  match s.data.getLast? with
  | some c => c == '\n'
  | none => false

/-- The newline policy of `log.Logger.Output`: append a `'\n'` unless the
message already ends in one. -/
def withNewline (s : String) : String :=
  if lastIsNL s then s else s ++ "\n"

/-- Embeds `logger.Println` (logger.go line 543): freeze the configuration,
read the clock, run the rotation check, ensure the sink's logger is open
(fatal on open failure), and emit
`fmt.Sprintln(timePrefix(now), levelString(level), v...)` — the timestamp,
the level label and the space-joined arguments, with one trailing newline.
Returns the new state together with the emitted bytes. -/
def println (openOk : Bool) (now : DateTime) (lvl : LogLevel)
    (v : List String) (st : St) : Except String (St × String) :=
  match ensureLogger openOk (sinkOf (rotateIfNeeded (freezeConfig st) now) lvl) with
  | .error e => .error e
  | .ok s =>
    .ok (setSinkOf (rotateIfNeeded (freezeConfig st) now) lvl s,
      sprintlnJoin (timePrefixStr now :: levelString lvl :: v))

/-- Embeds `logger.Printf` (logger.go line 562).  `fmtApplied` is
`fmt.Sprintf(format, v...)`; since neither the timestamp nor the level
label contains a `%`, `fmt.Sprintf(ts+" "+level+" "+format, v...) =
ts ++ " " ++ level ++ " " ++ fmt.Sprintf(format, v...)` exactly.
`log.Logger.Output` then appends a newline unless the message already ends
in one. -/
def printf (openOk : Bool) (now : DateTime) (lvl : LogLevel)
    (fmtApplied : String) (st : St) : Except String (St × String) :=
  match ensureLogger openOk (sinkOf (rotateIfNeeded (freezeConfig st) now) lvl) with
  | .error e => .error e
  | .ok s =>
    .ok (setSinkOf (rotateIfNeeded (freezeConfig st) now) lvl s,
      withNewline (timePrefixStr now ++ " " ++ levelString lvl ++ " " ++ fmtApplied))

/-! ### Concrete sample inputs used by witnesses and counterexamples -/

/-- A concrete instant: 2026-10-11 12:34:56.789012. -/
def sampleTime : DateTime :=
  { year := 2026, month := 10, day := 11, hour := 12, minute := 34
    sec := 56, micro := 789012 }

/-- A concrete later instant on the same day as `sampleTime`. -/
def sampleTimeLater : DateTime :=
  { year := 2026, month := 10, day := 11, hour := 23, minute := 59
    sec := 59, micro := 5 }

/-! ### Helper lemmas about the state transitions -/

theorem sinkSetFileName_fileName (s : Sink) (fn : String) :
    (sinkSetFileName s fn).fileName = fn := by
  unfold sinkSetFileName
  split
  · next h => exact h
  · split <;> rfl

theorem rotateIfDateChanged_cases (st : St) (d : String) :
    rotateIfDateChanged st d = st ∨ rotateIfDateChanged st d = rotateLocked st d := by
  unfold rotateIfDateChanged
  split
  · exact Or.inr rfl
  · exact Or.inl rfl

theorem rotateIfNeeded_cases (st : St) (n : DateTime) :
    rotateIfNeeded st n = st ∨
      rotateIfNeeded st n = rotateLocked st (formatDateKey n) := by
  unfold rotateIfNeeded
  split
  · exact Or.inl rfl
  · exact rotateIfDateChanged_cases st (formatDateKey n)

theorem rotateIfNeeded_started (st : St) (n : DateTime) :
    (rotateIfNeeded st n).started = st.started := by
  rcases rotateIfNeeded_cases st n with h | h
  · rw [h]
  · rw [h]
    rfl

theorem rotateIfNeeded_dirPath (st : St) (n : DateTime) :
    (rotateIfNeeded st n).dirPath = st.dirPath := by
  rcases rotateIfNeeded_cases st n with h | h
  · rw [h]
  · rw [h]
    rfl

theorem rotateIfNeeded_loc (st : St) (n : DateTime) :
    (rotateIfNeeded st n).loc = st.loc := by
  rcases rotateIfNeeded_cases st n with h | h
  · rw [h]
  · rw [h]
    rfl

theorem rotateIfNeeded_writers (st : St) (n : DateTime) :
    (rotateIfNeeded st n).writers = st.writers := by
  rcases rotateIfNeeded_cases st n with h | h
  · rw [h]
  · rw [h]
    rfl

theorem rotateIfNeeded_dirOnceDone (st : St) (n : DateTime) :
    (rotateIfNeeded st n).dirOnceDone = st.dirOnceDone := by
  rcases rotateIfNeeded_cases st n with h | h
  · rw [h]
  · rw [h]
    rfl

theorem freezeConfig_started (st : St) : (freezeConfig st).started = true := by
  unfold freezeConfig
  split
  · next h => exact h
  · rfl

theorem freezeConfig_dirPath (st : St) : (freezeConfig st).dirPath = st.dirPath := by
  unfold freezeConfig
  split <;> rfl

theorem freezeConfig_loc (st : St) : (freezeConfig st).loc = st.loc := by
  unfold freezeConfig
  split <;> rfl

theorem freezeConfig_writers (st : St) : (freezeConfig st).writers = st.writers := by
  unfold freezeConfig
  split <;> rfl

theorem freezeConfig_dirOnceDone (st : St) :
    (freezeConfig st).dirOnceDone = st.dirOnceDone := by
  unfold freezeConfig
  split <;> rfl

theorem setSinkOf_started (st : St) (lvl : LogLevel) (s : Sink) :
    (setSinkOf st lvl s).started = st.started := by
  cases lvl <;> rfl

theorem setSinkOf_dirPath (st : St) (lvl : LogLevel) (s : Sink) :
    (setSinkOf st lvl s).dirPath = st.dirPath := by
  cases lvl <;> rfl

theorem setSinkOf_loc (st : St) (lvl : LogLevel) (s : Sink) :
    (setSinkOf st lvl s).loc = st.loc := by
  cases lvl <;> rfl

theorem setSinkOf_writers (st : St) (lvl : LogLevel) (s : Sink) :
    (setSinkOf st lvl s).writers = st.writers := by
  cases lvl <;> rfl

theorem setSinkOf_dirOnceDone (st : St) (lvl : LogLevel) (s : Sink) :
    (setSinkOf st lvl s).dirOnceDone = st.dirOnceDone := by
  cases lvl <;> rfl

theorem ensureLogger_true_ok (s : Sink) :
    ∃ s', ensureLogger true s = .ok s' := by
  unfold ensureLogger
  split
  · exact ⟨s, rfl⟩
  · exact ⟨_, rfl⟩

/-- Inversion for `println`: a successful write leaves the state that the
rotation check produced, with only the written-to sink replaced. -/
theorem println_ok_state (openOk : Bool) (n : DateTime) (lvl : LogLevel)
    (v : List String) (st st' : St) (out : String)
    (h : println openOk n lvl v st = .ok (st', out)) :
    ∃ s, st' = setSinkOf (rotateIfNeeded (freezeConfig st) n) lvl s := by
  unfold println at h
  cases hE : ensureLogger openOk (sinkOf (rotateIfNeeded (freezeConfig st) n) lvl) with
  | error e => rw [hE] at h; cases h
  | ok s =>
    rw [hE] at h
    simp only [Except.ok.injEq, Prod.mk.injEq] at h
    exact ⟨s, h.1.symm⟩

/-- Inversion for `printf`, as for `println`. -/
theorem printf_ok_state (openOk : Bool) (n : DateTime) (lvl : LogLevel)
    (f : String) (st st' : St) (out : String)
    (h : printf openOk n lvl f st = .ok (st', out)) :
    ∃ s, st' = setSinkOf (rotateIfNeeded (freezeConfig st) n) lvl s := by
  unfold printf at h
  cases hE : ensureLogger openOk (sinkOf (rotateIfNeeded (freezeConfig st) n) lvl) with
  | error e => rw [hE] at h; cases h
  | ok s =>
    rw [hE] at h
    simp only [Except.ok.injEq, Prod.mk.injEq] at h
    exact ⟨s, h.1.symm⟩

/-- After a successful write the state is started and the frozen
configuration fields are untouched. -/
theorem write_state_fields (n : DateTime) (lvl : LogLevel) (st : St) (s : Sink) :
    (setSinkOf (rotateIfNeeded (freezeConfig st) n) lvl s).started = true ∧
    (setSinkOf (rotateIfNeeded (freezeConfig st) n) lvl s).dirPath = st.dirPath ∧
    (setSinkOf (rotateIfNeeded (freezeConfig st) n) lvl s).loc = st.loc ∧
    (setSinkOf (rotateIfNeeded (freezeConfig st) n) lvl s).writers = st.writers ∧
    (setSinkOf (rotateIfNeeded (freezeConfig st) n) lvl s).dirOnceDone = st.dirOnceDone := by
  refine ⟨?_, ?_, ?_, ?_, ?_⟩
  · rw [setSinkOf_started, rotateIfNeeded_started, freezeConfig_started]
  · rw [setSinkOf_dirPath, rotateIfNeeded_dirPath, freezeConfig_dirPath]
  · rw [setSinkOf_loc, rotateIfNeeded_loc, freezeConfig_loc]
  · rw [setSinkOf_writers, rotateIfNeeded_writers, freezeConfig_writers]
  · rw [setSinkOf_dirOnceDone, rotateIfNeeded_dirOnceDone, freezeConfig_dirOnceDone]

/-- A configuration call after the freeze is a no-op: `SetTimezone`. -/
theorem setTimezone_frozen (ld : String → Option Loc) (name : String)
    (n : DateTime) (st : St) (hs : st.started = true) :
    setTimezone ld name n st = .ok st := by
  unfold setTimezone
  simp [hs]

/-- A configuration call after the freeze is a no-op: `AppendWriter`. -/
theorem appendWriter_frozen (ws : List Nat) (st : St) (hs : st.started = true) :
    appendWriter ws st = st := by
  unfold appendWriter
  simp [hs]

/-- A configuration call after the freeze is a no-op: `SetDir`. -/
theorem setDir_frozen (ok : Bool) (p : String) (n : DateTime) (st : St)
    (hs : st.started = true) :
    setDir ok p n st = st := by
  unfold setDir
  simp [hs]

/-- A `SetTimezone` call once the latch has fired is a no-op. -/
theorem setTimezone_once_done (ld : String → Option Loc) (name : String)
    (n : DateTime) (st : St) (ho : st.tzOnceDone = true) :
    setTimezone ld name n st = .ok st := by
  unfold setTimezone
  simp [ho]

/-- An `AppendWriter` call once the latch has fired is a no-op. -/
theorem appendWriter_once_done (ws : List Nat) (st : St)
    (ho : st.writerOnceDone = true) :
    appendWriter ws st = st := by
  unfold appendWriter
  simp [ho]

/-- A `SetDir` call once the latch has fired is a no-op. -/
theorem setDir_once_done (ok : Bool) (p : String) (n : DateTime) (st : St)
    (ho : st.dirOnceDone = true) :
    setDir ok p n st = st := by
  unfold setDir
  simp [ho]

/-- Inversion for a successful `setTimezone`: either nothing happened or the
latch fired, a location was stored and an unconditional rotation ran. -/
theorem setTimezone_ok_cases (ld : String → Option Loc) (name : String)
    (n : DateTime) (st st' : St)
    (h : setTimezone ld name n st = .ok st') :
    st' = st ∨
      ∃ l, st' = rotate { st with tzOnceDone := true, loc := l }
        (formatDateKey n) := by
  unfold setTimezone at h
  split at h
  · exact Or.inl (Except.ok.inj h).symm
  · split at h
    · exact Or.inl (Except.ok.inj h).symm
    · split at h
      · exact Or.inl (Except.ok.inj h).symm
      · split at h
        · exact Or.inr ⟨_, (Except.ok.inj h).symm⟩
        · cases hl : ld name with
          | none => rw [hl] at h; cases h
          | some l => rw [hl] at h; exact Or.inr ⟨l, (Except.ok.inj h).symm⟩

/-- Inversion for `setDir`: nothing happened, or the latch fired with a
successful directory creation and a forced rotation, or the latch fired
with a failed creation and only a diagnostic. -/
theorem setDir_cases (ok : Bool) (p : String) (n : DateTime) (st : St) :
    setDir ok p n st = st ∨
      setDir ok p n st =
        rotate { st with dirOnceDone := true, dirPath := cleanPath p }
          (formatDateKey n) ∨
      setDir ok p n st =
        { st with dirOnceDone := true
                  stderrLog := st.stderrLog ++ [dirFailMsg (cleanPath p)] } := by
  unfold setDir
  split
  · exact Or.inl rfl
  · split
    · exact Or.inl rfl
    · split
      · exact Or.inl rfl
      · split
        · exact Or.inr (Or.inl rfl)
        · exact Or.inr (Or.inr rfl)

/-! ### Whole-process traces

To speak about "the rest of the process lifetime" the public operations of
the package are reified as a step relation: one `Op` per public call, with
its environment inputs (clock reading, mkdir / open outcomes, timezone
database) baked into the constructor.  `run` executes a sequence of calls,
stopping at the first fatal one. -/

/-- One public call into the package. -/
inductive Op where
  | opSetDir (mkdirOk : Bool) (path : String) (now : DateTime)
  | opSetTimezone (ld : String → Option Loc) (name : String) (now : DateTime)
  | opAppendWriter (ws : List Nat)
  | opPrintln (openOk : Bool) (now : DateTime) (lvl : LogLevel) (v : List String)
  | opPrintf (openOk : Bool) (now : DateTime) (lvl : LogLevel) (fmtApplied : String)

/-- The state transition of one public call (the emitted bytes of a write
are dropped; a fatal call is `Except.error`). -/
def step (op : Op) (st : St) : Except String St :=
  match op with
  | .opSetDir ok p n => .ok (setDir ok p n st)
  | .opSetTimezone ld name n => setTimezone ld name n st
  | .opAppendWriter ws => .ok (appendWriter ws st)
  | .opPrintln ok n lvl v => (println ok n lvl v st).map Prod.fst
  | .opPrintf ok n lvl f => (printf ok n lvl f st).map Prod.fst

/-- Executes a sequence of public calls. -/
def run (ops : List Op) (st : St) : Except String St :=
  match ops with
  | [] => .ok st
  | op :: rest =>
    match step op st with
    | .error e => .error e
    | .ok st' => run rest st'

/-- Inversion of the `Except.map Prod.fst` in `step` for writes. -/
theorem map_fst_ok {r : Except String (St × String)} {st' : St}
    (h : r.map Prod.fst = .ok st') :
    ∃ out, r = .ok (st', out) := by
  cases r with
  | error e => cases h
  | ok p =>
    cases p with
    | mk a b =>
      simp only [Except.map, Except.ok.injEq] at h
      exact ⟨b, by rw [h]⟩

/-- Once the process is frozen (`started`), every step preserves the three
configuration cells and the freeze flag. -/
theorem step_frozen (op : Op) (st st' : St) (hs : st.started = true)
    (h : step op st = .ok st') :
    st'.started = true ∧ st'.dirPath = st.dirPath ∧ st'.loc = st.loc ∧
      st'.writers = st.writers := by
  cases op with
  | opSetDir ok p n =>
    have := Except.ok.inj h
    rw [← this, setDir_frozen ok p n st hs]
    exact ⟨hs, rfl, rfl, rfl⟩
  | opSetTimezone ld name n =>
    have h : setTimezone ld name n st = Except.ok st' := h
    rw [setTimezone_frozen ld name n st hs] at h
    have := Except.ok.inj h
    rw [← this]
    exact ⟨hs, rfl, rfl, rfl⟩
  | opAppendWriter ws =>
    have := Except.ok.inj h
    rw [← this, appendWriter_frozen ws st hs]
    exact ⟨hs, rfl, rfl, rfl⟩
  | opPrintln ok n lvl v =>
    obtain ⟨out, hr⟩ := map_fst_ok h
    obtain ⟨s, hst⟩ := println_ok_state ok n lvl v st st' out hr
    rw [hst]
    obtain ⟨h1, h2, h3, h4, _⟩ := write_state_fields n lvl st s
    exact ⟨h1, h2, h3, h4⟩
  | opPrintf ok n lvl f =>
    obtain ⟨out, hr⟩ := map_fst_ok h
    obtain ⟨s, hst⟩ := printf_ok_state ok n lvl f st st' out hr
    rw [hst]
    obtain ⟨h1, h2, h3, h4, _⟩ := write_state_fields n lvl st s
    exact ⟨h1, h2, h3, h4⟩

/-- Once the `SetDir` latch has fired, every step preserves the latch and
the directory. -/
theorem step_dirOnce (op : Op) (st st' : St) (hd : st.dirOnceDone = true)
    (h : step op st = .ok st') :
    st'.dirOnceDone = true ∧ st'.dirPath = st.dirPath := by
  cases op with
  | opSetDir ok p n =>
    have := Except.ok.inj h
    rw [← this, setDir_once_done ok p n st hd]
    exact ⟨hd, rfl⟩
  | opSetTimezone ld name n =>
    rcases setTimezone_ok_cases ld name n st st' h with heq | ⟨l, heq⟩
    · rw [heq]
      exact ⟨hd, rfl⟩
    · rw [heq]
      exact ⟨hd, rfl⟩
  | opAppendWriter ws =>
    have := Except.ok.inj h
    rw [← this]
    unfold appendWriter
    refine ⟨?_, ?_⟩
    · split
      · exact hd
      · split
        · exact hd
        · split
          · exact hd
          · exact hd
    · split
      · rfl
      · split
        · rfl
        · split
          · rfl
          · rfl
  | opPrintln ok n lvl v =>
    obtain ⟨out, hr⟩ := map_fst_ok h
    obtain ⟨s, hst⟩ := println_ok_state ok n lvl v st st' out hr
    rw [hst]
    refine ⟨?_, ?_⟩
    · rw [setSinkOf_dirOnceDone, rotateIfNeeded_dirOnceDone, freezeConfig_dirOnceDone]
      exact hd
    · rw [setSinkOf_dirPath, rotateIfNeeded_dirPath, freezeConfig_dirPath]
  | opPrintf ok n lvl f =>
    obtain ⟨out, hr⟩ := map_fst_ok h
    obtain ⟨s, hst⟩ := printf_ok_state ok n lvl f st st' out hr
    rw [hst]
    refine ⟨?_, ?_⟩
    · rw [setSinkOf_dirOnceDone, rotateIfNeeded_dirOnceDone, freezeConfig_dirOnceDone]
      exact hd
    · rw [setSinkOf_dirPath, rotateIfNeeded_dirPath, freezeConfig_dirPath]

/-- `step_frozen`, extended over a whole trace. -/
theorem run_frozen (ops : List Op) (st st' : St) (hs : st.started = true)
    (h : run ops st = .ok st') :
    st'.started = true ∧ st'.dirPath = st.dirPath ∧ st'.loc = st.loc ∧
      st'.writers = st.writers := by
  induction ops generalizing st with
  | nil =>
    have := Except.ok.inj h
    rw [← this]
    exact ⟨hs, rfl, rfl, rfl⟩
  | cons op rest ih =>
    unfold run at h
    cases hstep : step op st with
    | error e => rw [hstep] at h; cases h
    | ok st₁ =>
      rw [hstep] at h
      obtain ⟨f1, f2, f3, f4⟩ := step_frozen op st st₁ hs hstep
      obtain ⟨g1, g2, g3, g4⟩ := ih st₁ f1 h
      exact ⟨g1, g2.trans f2, g3.trans f3, g4.trans f4⟩

/-- `step_dirOnce`, extended over a whole trace. -/
theorem run_dirOnce (ops : List Op) (st st' : St) (hd : st.dirOnceDone = true)
    (h : run ops st = .ok st') :
    st'.dirOnceDone = true ∧ st'.dirPath = st.dirPath := by
  induction ops generalizing st with
  | nil =>
    have := Except.ok.inj h
    rw [← this]
    exact ⟨hd, rfl⟩
  | cons op rest ih =>
    unfold run at h
    cases hstep : step op st with
    | error e => rw [hstep] at h; cases h
    | ok st₁ =>
      rw [hstep] at h
      obtain ⟨f1, f2⟩ := step_dirOnce op st st₁ hd hstep
      obtain ⟨g1, g2⟩ := ih st₁ f1 h
      exact ⟨g1, g2.trans f2⟩

/-! ### String and path lemmas -/

theorem strData_append (a b : String) : (a ++ b).data = a.data ++ b.data := by
  cases a
  cases b
  rfl

theorem lastIsNL_append_nl (m : String) : lastIsNL (m ++ "\n") = true := by
  unfold lastIsNL
  rw [strData_append, show ("\n" : String).data = ['\n'] from rfl,
    List.getLast?_concat]
  rfl

theorem lastIsNL_withNewline (m : String) : lastIsNL (withNewline m) = true := by
  unfold withNewline
  split
  · next h => exact h
  · exact lastIsNL_append_nl m

theorem splitSlash_no_slash (cs : List Char) (h : '/' ∉ cs) :
    splitSlash cs = [cs] := by
  induction cs with
  | nil => rfl
  | cons c cs ih =>
    have hc : ¬ c = '/' := fun e => h (by rw [e]; exact List.mem_cons_self _ _)
    have hcs : '/' ∉ cs := fun m => h (List.mem_cons_of_mem _ m)
    unfold splitSlash
    rw [if_neg hc, ih hcs]

theorem cleanPathChars_id (cs : List Char) (h : '/' ∉ cs)
    (hlen : 3 ≤ cs.length) : cleanPathChars cs = cs := by
  have hne : cs ≠ [] := by intro e; rw [e] at hlen; simp at hlen
  have hdot : cs ≠ ['.'] := by intro e; rw [e] at hlen; simp at hlen
  have hdd : cs ≠ ['.', '.'] := by intro e; rw [e] at hlen; simp at hlen
  have hroot : ¬ isRooted cs = true := by
    cases cs with
    | nil => exact absurd rfl hne
    | cons c cs' =>
      have hc : ¬ c = '/' := fun e => h (by rw [e]; exact List.mem_cons_self _ _)
      simp [isRooted, hc]
  have hsegs : cleanedSegs false cs = [cs] := by
    unfold cleanedSegs
    rw [splitSlash_no_slash cs h]
    show (cleanStepSeg false [] cs).reverse = [cs]
    unfold cleanStepSeg
    rw [if_neg (by rintro (e | e) <;> [exact hne e; exact hdot e]), if_neg hdd]
    rfl
  unfold cleanPathChars
  rw [if_neg hne, if_neg hroot, hsegs]
  show (if cs = [] then ['.'] else cs) = cs
  rw [if_neg hne]

theorem cleanPath_id (s : String) (h : '/' ∉ s.data)
    (hlen : 3 ≤ s.data.length) : cleanPath s = s := by
  unfold cleanPath
  rw [cleanPathChars_id s.data h hlen]

theorem goJoin_empty_left (name : String) (h : '/' ∉ name.data)
    (hlen : 3 ≤ name.data.length) : goJoin "" name = name := by
  have hne : ¬ name = "" := by
    intro e
    rw [e] at hlen
    simp at hlen
  unfold goJoin
  rw [if_pos rfl, if_neg hne]
  exact cleanPath_id name h hlen

/-- The per-level file name computed by a rotation, written with its four
components (`<dir>`-join-`<dayKey>.<levelname>.log`) exposed. -/
theorem rotateLocked_fileName (st : St) (d : String) (lvl : LogLevel) :
    (sinkOf (rotateLocked st d) lvl).fileName =
      goJoin st.dirPath (d ++ "." ++ levelFileKey lvl ++ ".log") := by
  cases lvl with
  | debug =>
    show (sinkSetFileName st.debug (goJoin st.dirPath (d ++ ".debug.log"))).fileName =
      goJoin st.dirPath (d ++ "." ++ "debug" ++ ".log")
    rw [sinkSetFileName_fileName]
    congr 1
    rw [String.append_assoc (d ++ ".") "debug" ".log",
      String.append_assoc d "." ("debug" ++ ".log")]
    congr 1
  | info =>
    show (sinkSetFileName st.info (goJoin st.dirPath (d ++ ".info.log"))).fileName =
      goJoin st.dirPath (d ++ "." ++ "info" ++ ".log")
    rw [sinkSetFileName_fileName]
    congr 1
    rw [String.append_assoc (d ++ ".") "info" ".log",
      String.append_assoc d "." ("info" ++ ".log")]
    congr 1
  | warning =>
    show (sinkSetFileName st.warning (goJoin st.dirPath (d ++ ".warning.log"))).fileName =
      goJoin st.dirPath (d ++ "." ++ "warning" ++ ".log")
    rw [sinkSetFileName_fileName]
    congr 1
    rw [String.append_assoc (d ++ ".") "warning" ".log",
      String.append_assoc d "." ("warning" ++ ".log")]
    congr 1
  | error =>
    show (sinkSetFileName st.error (goJoin st.dirPath (d ++ ".error.log"))).fileName =
      goJoin st.dirPath (d ++ "." ++ "error" ++ ".log")
    rw [sinkSetFileName_fileName]
    congr 1
    rw [String.append_assoc (d ++ ".") "error" ".log",
      String.append_assoc d "." ("error" ++ ".log")]
    congr 1

/-- With a successful file open, a write never fails. -/
theorem println_true_ok (n : DateTime) (lvl : LogLevel) (v : List String)
    (st : St) :
    ∃ st2 out, println true n lvl v st = Except.ok (st2, out) := by
  unfold println
  obtain ⟨s', hs'⟩ := ensureLogger_true_ok
    (sinkOf (rotateIfNeeded (freezeConfig st) n) lvl)
  rw [hs']
  exact ⟨_, _, rfl⟩

/-- The exact effect of a first effective `SetDir` whose `os.MkdirAll`
fails: the latch fires, a diagnostic is printed, nothing else changes. -/
theorem setDir_fail_eq (st : St) (p : String) (n : DateTime)
    (hp : p ≠ "") (hs : st.started = false) (ho : st.dirOnceDone = false) :
    setDir false p n st =
      { st with dirOnceDone := true
                stderrLog := st.stderrLog ++ [dirFailMsg (cleanPath p)] } := by
  unfold setDir
  rw [if_neg hp, hs]
  simp [ho]

/-- The exact effect of a first effective `SetDir` whose `os.MkdirAll`
succeeds: the latch fires, the cleaned path is stored, and an unconditional
rotation runs. -/
theorem setDir_success_eq (st : St) (p : String) (n : DateTime)
    (hp : p ≠ "") (hs : st.started = false) (ho : st.dirOnceDone = false) :
    setDir true p n st =
      rotate { st with dirOnceDone := true, dirPath := cleanPath p }
        (formatDateKey n) := by
  unfold setDir
  rw [if_neg hp, hs]
  simp [ho]

/-! ### A character-class pattern matcher

`matchesPat` checks a string against a fixed-length pattern of digit
classes and literal characters; `infoHelloPat` is the regular expression
`^\d\x7b4\x7d-\d\x7b2\x7d-\d\x7b2\x7d \d\x7b2\x7d:\d\x7b2\x7d:\d\x7b2\x7d\.\d\x7b6\x7d INFO hello\n$`
from the specification and the repository's own test, written out. -/

/-- One pattern token: a decimal digit, or one literal character. -/
inductive PatTok where
  | digit : PatTok
  | lit : Char → PatTok

/-- Matches the whole character list against the whole pattern. -/
def matchesPat : List PatTok → List Char → Bool
  | [], [] => true
  | PatTok.digit :: ts, c :: cs => c.isDigit && matchesPat ts cs
  | PatTok.lit a :: ts, c :: cs => a == c && matchesPat ts cs
  | _, _ => false

/-- `k` digit tokens. -/
def digitsPat (k : Nat) : List PatTok :=
  List.replicate k PatTok.digit

/-- The characters of `s` as literal tokens. -/
def litsPat (s : String) : List PatTok :=
  s.data.map PatTok.lit

/-- The dash-separated timestamp pattern followed by the literal
`" INFO hello\n"`. -/
def infoHelloPat : List PatTok :=
  digitsPat 4 ++ litsPat "-" ++ digitsPat 2 ++ litsPat "-" ++ digitsPat 2 ++
    litsPat " " ++ digitsPat 2 ++ litsPat ":" ++ digitsPat 2 ++ litsPat ":" ++
    digitsPat 2 ++ litsPat "." ++ digitsPat 6 ++ litsPat " INFO hello\n"

/-- Whether a line matches the Info-`hello` round-trip pattern of the
specification. -/
def matchesInfoHello (s : String) : Bool :=
  matchesPat infoHelloPat s.data

/-! ### Component extractors for concrete runs -/

/-- The state component of a successful write. -/
def okSt (r : Except String (St × String)) (fallback : St) : St :=
  match r with
  | .ok p => p.1
  | .error _ => fallback

/-- The emitted bytes of a successful write. -/
def okOut (r : Except String (St × String)) : String :=
  match r with
  | .ok p => p.2
  | .error _ => ""

/-- The final state of a successful trace. -/
def runOkSt (r : Except String St) (fallback : St) : St :=
  match r with
  | .ok s => s
  | .error _ => fallback

/-! ### The claims -/

/-- Claim C1.  The claim says a `Println` line is
`<YYYY-MM-DD HH:MM:SS.ffffff> <LEVEL> <args>` with one trailing newline and
that `Println("hello")` at Info level matches
`^\d\x7b4\x7d-\d\x7b2\x7d-\d\x7b2\x7d ... INFO hello\n$`.  The code disagrees on the date
separator: `timePrefix` formats with the layout
`2006/01/02 15:04:05.000000`, so the emitted line at the sample instant is
`2026/10/11 12:34:56.789012 INFO hello\n`, which fails the dash pattern
(while the dash-dated variant of the same line would match it).  Everything
else about the claimed shape (single space separators, uppercase label,
space-joined arguments, exactly one trailing newline, microsecond
precision) is visible in the computed line.  This contradicts the
repository's own test (`logger_test.go` asserts the dash pattern against
this very line) and the doc comment on `timePrefix` itself
(`格式：2006-01-02 15:04:05.000000`), so it is a bug in the code, not in the
specification. -/
theorem c1_println_emits_slash_date :
    (println true sampleTime .info ["hello"] (initialState sampleTime)).map
        Prod.snd =
      Except.ok "2026/10/11 12:34:56.789012 INFO hello\n" ∧
    matchesInfoHello "2026/10/11 12:34:56.789012 INFO hello\n" = false ∧
    matchesInfoHello "2026-10-11 12:34:56.789012 INFO hello\n" = true := by
  refine ⟨by rfl, by decide, by decide⟩

/-- Counterexample to claim C2 as stated.  The claim says that when the
caller's format string does not end in a newline the emitted bytes do not
end in a newline.  With format `"x=1"` (no verbs, so `fmt.Sprintf` returns
it unchanged) the emitted bytes are
`2026/10/11 12:34:56.789012 WARNING x=1\n` — they do end in a newline,
because `log.Logger.Output` appends one to any message that lacks it (the
repository's own test relies on this: `末尾换行由 log 包保证`). -/
theorem c2_printf_counterexample :
    lastIsNL "x=1" = false ∧
    (printf true sampleTime .warning "x=1" (initialState sampleTime)).map
        Prod.snd =
      Except.ok "2026/10/11 12:34:56.789012 WARNING x=1\n" ∧
    lastIsNL "2026/10/11 12:34:56.789012 WARNING x=1\n" = true := by
  refine ⟨by decide, by rfl, by decide⟩

/-- Claim C2 as amended.  Every successful `Printf` emits the timestamp
prefix, the level label and the applied format string, and the underlying
`log` writer appends one trailing newline exactly when the message does not
already end in one — so the emitted bytes always end in a newline. -/
theorem c2_printf_appends_newline (openOk : Bool) (n : DateTime)
    (lvl : LogLevel) (f : String) (st st' : St) (out : String)
    (h : printf openOk n lvl f st = Except.ok (st', out)) :
    out = withNewline (timePrefixStr n ++ " " ++ levelString lvl ++ " " ++ f) ∧
    lastIsNL out = true := by
  unfold printf at h
  cases hE : ensureLogger openOk (sinkOf (rotateIfNeeded (freezeConfig st) n) lvl) with
  | error e => rw [hE] at h; cases h
  | ok s =>
    rw [hE] at h
    simp only [Except.ok.injEq, Prod.mk.injEq] at h
    refine ⟨h.2.symm, ?_⟩
    rw [← h.2]
    exact lastIsNL_withNewline _

/-- Witness for `c2_printf_appends_newline` at a concrete call. -/
theorem c2_printf_appends_newline_witness :
    okOut (printf true sampleTime .warning "x=1" (initialState sampleTime)) =
      withNewline (timePrefixStr sampleTime ++ " " ++
        levelString .warning ++ " " ++ "x=1") ∧
    lastIsNL (okOut (printf true sampleTime .warning "x=1"
      (initialState sampleTime))) = true :=
  c2_printf_appends_newline true sampleTime .warning "x=1"
    (initialState sampleTime)
    (okSt (printf true sampleTime .warning "x=1" (initialState sampleTime))
      (initialState sampleTime))
    (okOut (printf true sampleTime .warning "x=1" (initialState sampleTime)))
    (by rfl)

/-- Claim C3.  For each configuration function only the first pre-write
call with a non-empty argument takes effect, and every subsequent call to
the same function — before or after the first write — leaves the
configuration unchanged.  Concretely `SetDir(A); SetDir(B)` before any
write stores (the cleaned) `A` and the second call is the identity; and
once any of the three latches has fired, the corresponding function is a
no-op forever. -/
theorem c3_first_config_call_wins (st : St) (A B : String) (n1 n2 : DateTime)
    (ok2 : Bool) (hA : A ≠ "") (hs : st.started = false)
    (ho : st.dirOnceDone = false) :
    (setDir true A n1 st).dirPath = cleanPath A ∧
    setDir ok2 B n2 (setDir true A n1 st) = setDir true A n1 st ∧
    (∀ st2 : St, st2.dirOnceDone = true →
      ∀ ok p n, setDir ok p n st2 = st2) ∧
    (∀ st2 : St, st2.tzOnceDone = true →
      ∀ ld name n, setTimezone ld name n st2 = Except.ok st2) ∧
    (∀ st2 : St, st2.writerOnceDone = true →
      ∀ ws, appendWriter ws st2 = st2) := by
  have h1 := setDir_success_eq st A n1 hA hs ho
  refine ⟨?_, ?_, ?_, ?_, ?_⟩
  · rw [h1]
    rfl
  · apply setDir_once_done
    rw [h1]
    rfl
  · intro st2 h2 ok p n
    exact setDir_once_done ok p n st2 h2
  · intro st2 h2 ld name n
    exact setTimezone_once_done ld name n st2 h2
  · intro st2 h2 ws
    exact appendWriter_once_done ws st2 h2

/-- Witness for `c3_first_config_call_wins` at a concrete call. -/
theorem c3_first_config_call_wins_witness :
    (setDir true "logs" sampleTime (initialState sampleTime)).dirPath =
      cleanPath "logs" ∧
    setDir true "other" sampleTime
        (setDir true "logs" sampleTime (initialState sampleTime)) =
      setDir true "logs" sampleTime (initialState sampleTime) := by
  have h := c3_first_config_call_wins (initialState sampleTime) "logs" "other"
    sampleTime sampleTime true (by decide) (by rfl) (by rfl)
  exact ⟨h.1, h.2.1⟩

/-- Claim C4.  Any successful write (`Println` or `Printf` on any sink)
leaves the `started` flag set; and from any started state, any sequence of
public calls keeps `started` set and never changes the directory, the
location or the extra-writer list — each configuration function is a
pointwise no-op on a started state. -/
theorem c4_write_freezes_configuration :
    (∀ ok n lvl v st st' out,
      println ok n lvl v st = Except.ok (st', out) → st'.started = true) ∧
    (∀ ok n lvl f st st' out,
      printf ok n lvl f st = Except.ok (st', out) → st'.started = true) ∧
    (∀ ops st st', st.started = true → run ops st = Except.ok st' →
      st'.started = true ∧ st'.dirPath = st.dirPath ∧ st'.loc = st.loc ∧
        st'.writers = st.writers) ∧
    (∀ st : St, st.started = true →
      (∀ ok p n, setDir ok p n st = st) ∧
      (∀ ld name n, setTimezone ld name n st = Except.ok st) ∧
      (∀ ws, appendWriter ws st = st)) := by
  refine ⟨?_, ?_, ?_, ?_⟩
  · intro ok n lvl v st st' out h
    obtain ⟨s, hst⟩ := println_ok_state ok n lvl v st st' out h
    rw [hst]
    exact (write_state_fields n lvl st s).1
  · intro ok n lvl f st st' out h
    obtain ⟨s, hst⟩ := printf_ok_state ok n lvl f st st' out h
    rw [hst]
    exact (write_state_fields n lvl st s).1
  · intro ops st st' hs h
    exact run_frozen ops st st' hs h
  · intro st hs
    exact ⟨fun ok p n => setDir_frozen ok p n st hs,
      fun ld name n => setTimezone_frozen ld name n st hs,
      fun ws => appendWriter_frozen ws st hs⟩

/-- Witness for `c4_write_freezes_configuration` at a concrete trace. -/
theorem c4_write_freezes_configuration_witness :
    (freezeConfig (initialState sampleTime)).started = true ∧
    (freezeConfig (initialState sampleTime)).dirPath =
      (freezeConfig (initialState sampleTime)).dirPath ∧
    (freezeConfig (initialState sampleTime)).loc =
      (freezeConfig (initialState sampleTime)).loc ∧
    (freezeConfig (initialState sampleTime)).writers =
      (freezeConfig (initialState sampleTime)).writers :=
  c4_write_freezes_configuration.2.2.1 [Op.opAppendWriter [7]]
    (freezeConfig (initialState sampleTime))
    (freezeConfig (initialState sampleTime)) (by rfl) (by rfl)

/-- Claim C5.  The rotation check is idempotent within a day: after
`rotateIfNeeded` has run at instant `n`, running it again at any instant
with the same day key returns the state unchanged — same file names, no
handle closed, no initialized logger cleared. -/
theorem c5_rotation_idempotent_same_day (st : St) (n n2 : DateTime)
    (h : formatDateKey n2 = formatDateKey n) :
    rotateIfNeeded (rotateIfNeeded st n) n2 = rotateIfNeeded st n := by
  by_cases h1 : st.dateFast = formatDateKey n
  · have hi : rotateIfNeeded st n = st := by
      unfold rotateIfNeeded
      rw [if_pos h1]
    rw [hi]
    unfold rotateIfNeeded
    rw [h, if_pos h1]
  · by_cases h2 : st.dateStr = formatDateKey n
    · have hi : rotateIfNeeded st n = st := by
        unfold rotateIfNeeded rotateIfDateChanged
        rw [if_neg h1, if_neg (not_not_intro h2)]
      rw [hi]
      unfold rotateIfNeeded rotateIfDateChanged
      rw [h, if_neg h1, if_neg (not_not_intro h2)]
    · have hi : rotateIfNeeded st n = rotateLocked st (formatDateKey n) := by
        unfold rotateIfNeeded rotateIfDateChanged
        rw [if_neg h1, if_pos h2]
      rw [hi]
      unfold rotateIfNeeded
      rw [h, if_pos (show (rotateLocked st (formatDateKey n)).dateFast =
        formatDateKey n from rfl)]

/-- Witness for `c5_rotation_idempotent_same_day` at a concrete state and
two instants of the same day. -/
theorem c5_rotation_idempotent_same_day_witness :
    rotateIfNeeded (rotateIfNeeded (initialState sampleTime) sampleTime)
        sampleTimeLater =
      rotateIfNeeded (initialState sampleTime) sampleTime :=
  c5_rotation_idempotent_same_day (initialState sampleTime) sampleTime
    sampleTimeLater (by rfl)

/-- Claim C6.  Every rotation derives each level's file name as
`<directory>/<dayKey>.<levelname>.log` (via `filepath.Join`, with the
lowercase level names), the initial state does so with the empty directory,
and with the directory unset the join leaves the slash-free file name
without any directory component — files land in the working directory. -/
theorem c6_rotation_path_invariant (st : St) (d : String) (n : DateTime) :
    (∀ lvl, (sinkOf (rotateLocked st d) lvl).fileName =
      goJoin st.dirPath (d ++ "." ++ levelFileKey lvl ++ ".log")) ∧
    (∀ lvl, (sinkOf (initialState n) lvl).fileName =
      goJoin "" (formatDateKey n ++ "." ++ levelFileKey lvl ++ ".log")) ∧
    (∀ dk lvl, '/' ∉ dk.data →
      goJoin "" (dk ++ "." ++ levelFileKey lvl ++ ".log") =
        dk ++ "." ++ levelFileKey lvl ++ ".log") := by
  refine ⟨fun lvl => rotateLocked_fileName st d lvl, fun lvl => ?_, ?_⟩
  · exact rotateLocked_fileName _ (formatDateKey n) lvl
  · intro dk lvl hdk
    apply goJoin_empty_left
    · rw [strData_append, strData_append, strData_append]
      simp only [List.mem_append]
      rintro (((h1 | h1) | h1) | h1)
      · exact hdk h1
      · revert h1
        decide
      · revert h1
        cases lvl <;> decide
      · revert h1
        decide
    · rw [strData_append, strData_append, strData_append,
        List.length_append, List.length_append, List.length_append]
      have h4 : (".log" : String).data.length = 4 := by decide
      rw [h4]
      omega

/-- Witness for `c6_rotation_path_invariant` at a concrete day key. -/
theorem c6_rotation_path_invariant_witness :
    goJoin "" ("2026-10-11" ++ "." ++ levelFileKey .info ++ ".log") =
      "2026-10-11" ++ "." ++ levelFileKey .info ++ ".log" :=
  (c6_rotation_path_invariant (initialState sampleTime) "2026-10-11"
    sampleTime).2.2 "2026-10-11" .info (by decide)

/-- Claim C7.  A first effective `SetDir` whose directory creation fails
does not terminate the process (the embedding of `SetDir` has no fatal
outcome): it emits exactly one diagnostic on the default error stream,
leaves the configured directory unchanged, performs no rotation (day key
and every sink untouched), and subsequent writes (with a successful lazy
file open) still succeed against the unchanged fallback location. -/
theorem c7_setdir_failure_falls_back (st : St) (p : String) (n : DateTime)
    (hp : p ≠ "") (hs : st.started = false) (ho : st.dirOnceDone = false) :
    setDir false p n st =
      { st with dirOnceDone := true
                stderrLog := st.stderrLog ++ [dirFailMsg (cleanPath p)] } ∧
    (setDir false p n st).dirPath = st.dirPath ∧
    (setDir false p n st).dateStr = st.dateStr ∧
    (∀ lvl, sinkOf (setDir false p n st) lvl = sinkOf st lvl) ∧
    (∀ lvl n2 v, ∃ st2 out,
      println true n2 lvl v (setDir false p n st) = Except.ok (st2, out)) := by
  have h1 := setDir_fail_eq st p n hp hs ho
  refine ⟨h1, ?_, ?_, ?_, ?_⟩
  · rw [h1]
  · rw [h1]
  · intro lvl
    rw [h1]
    cases lvl <;> rfl
  · intro lvl n2 v
    exact println_true_ok n2 lvl v _

/-- Witness for `c7_setdir_failure_falls_back` at the failing path of the
repository's own test (`block/subdir`). -/
theorem c7_setdir_failure_falls_back_witness :
    (setDir false "block/subdir" sampleTime (initialState sampleTime)).dirPath =
      (initialState sampleTime).dirPath :=
  (c7_setdir_failure_falls_back (initialState sampleTime) "block/subdir"
    sampleTime (by decide) (by rfl) (by rfl)).2.1

/-- Claim C8.  A first effective `SetTimezone` with a non-empty name that
is not the built-in `"Asia/Shanghai"` and that the timezone database cannot
resolve is fatal: it returns the `log.Fatalln` outcome carrying the
`加载时区失败` diagnostic with the offending name (process exit with a
non-zero status), with no error value returned to the caller and no retry.
With the built-in name the call succeeds — storing the fixed UTC+8 zone and
forcing a rotation — uniformly in the database function, which is never
consulted. -/
theorem c8_settimezone_invalid_fatal (ld : String → Option Loc)
    (name : String) (n : DateTime) (st : St) (h1 : name ≠ "")
    (h2 : name ≠ "Asia/Shanghai") (h3 : ld name = none)
    (hs : st.started = false) (ho : st.tzOnceDone = false) :
    setTimezone ld name n st = Except.error (tzFailMsg name) ∧
    (∀ ld2 : String → Option Loc,
      setTimezone ld2 "Asia/Shanghai" n st =
        Except.ok (rotate
          { st with tzOnceDone := true
                    loc := fixedZone "Asia/Shanghai" (8 * 3600) }
          (formatDateKey n))) := by
  constructor
  · unfold setTimezone
    rw [if_neg h1, hs]
    simp [ho, h2, h3]
  · intro ld2
    unfold setTimezone
    rw [hs]
    simp [ho]

/-- Witness for `c8_settimezone_invalid_fatal` at a concrete invalid name
and an empty timezone database. -/
theorem c8_settimezone_invalid_fatal_witness :
    setTimezone (fun _ => none) "Mars/Olympus" sampleTime
        (initialState sampleTime) =
      Except.error (tzFailMsg "Mars/Olympus") :=
  (c8_settimezone_invalid_fatal (fun _ => none) "Mars/Olympus" sampleTime
    (initialState sampleTime) (by decide) (by decide) (by rfl) (by rfl)
    (by rfl)).1

/-- Claim C9.  A configuration call with an empty / zero argument returns
before the `sync.Once` latch fires and is a pure no-op, so it does not
consume the one-shot: a later pre-write call to the same function with a
non-empty argument still takes full effect (for `SetDir` the directory gets
stored, for `SetTimezone` the zone gets stored with a forced rotation, for
`AppendWriter` the writers get stored). -/
theorem c9_empty_arg_preserves_latch (st : St) (mk0 : Bool) (n0 n1 : DateTime)
    (ld0 ld1 : String → Option Loc) (p : String) (ws : List Nat) :
    setDir mk0 "" n0 st = st ∧
    setTimezone ld0 "" n0 st = Except.ok st ∧
    appendWriter [] st = st ∧
    (st.started = false → st.dirOnceDone = false → p ≠ "" →
      (setDir true p n1 (setDir mk0 "" n0 st)).dirPath = cleanPath p) ∧
    (st.started = false → st.tzOnceDone = false → ∀ st2,
      setTimezone ld0 "" n0 st = Except.ok st2 →
      setTimezone ld1 "Asia/Shanghai" n1 st2 =
        Except.ok (rotate
          { st2 with tzOnceDone := true
                     loc := fixedZone "Asia/Shanghai" (8 * 3600) }
          (formatDateKey n1))) ∧
    (st.started = false → st.writerOnceDone = false → ws ≠ [] →
      (appendWriter ws (appendWriter [] st)).writers = ws) := by
  have hd : setDir mk0 "" n0 st = st := by
    unfold setDir
    rw [if_pos rfl]
  have ht : setTimezone ld0 "" n0 st = Except.ok st := by
    unfold setTimezone
    rw [if_pos rfl]
  have ha : appendWriter [] st = st := by
    unfold appendWriter
    rw [if_pos rfl]
  refine ⟨hd, ht, ha, ?_, ?_, ?_⟩
  · intro hs ho hp
    rw [hd, setDir_success_eq st p n1 hp hs ho]
    rfl
  · intro hs ho st2 h2
    rw [ht] at h2
    have he : st2 = st := (Except.ok.inj h2).symm
    subst he
    unfold setTimezone
    rw [hs]
    simp [ho]
  · intro hs ho hw
    rw [ha]
    unfold appendWriter
    rw [if_neg hw, hs]
    simp [ho]

/-- Witness for `c9_empty_arg_preserves_latch` at a concrete sequence. -/
theorem c9_empty_arg_preserves_latch_witness :
    (setDir true "logs" sampleTime
      (setDir true "" sampleTime (initialState sampleTime))).dirPath =
      cleanPath "logs" :=
  (c9_empty_arg_preserves_latch (initialState sampleTime) true sampleTime
    sampleTime (fun _ => none) (fun _ => none) "logs" [3]).2.2.2.1
    (by rfl) (by rfl) (by decide)

/-- Claim C10.  A first effective `SetDir` whose `os.MkdirAll` fails still
consumes the `sync.Once` latch: a subsequent pre-write `SetDir` with a
creatable path is ignored, and along every subsequent successful trace of
public calls the directory stays unset forever. -/
theorem c10_setdir_latch_consumed_on_failure (st : St) (p : String)
    (n : DateTime) (hp : p ≠ "") (hs : st.started = false)
    (ho : st.dirOnceDone = false) (hdir : st.dirPath = "") :
    (setDir false p n st).dirPath = "" ∧
    (setDir false p n st).dirOnceDone = true ∧
    (∀ okq q n2, setDir okq q n2 (setDir false p n st) = setDir false p n st) ∧
    (∀ ops st2, run ops (setDir false p n st) = Except.ok st2 →
      st2.dirPath = "") := by
  have h1 := setDir_fail_eq st p n hp hs ho
  have hdp : (setDir false p n st).dirPath = "" := by
    rw [h1]
    exact hdir
  have hdo : (setDir false p n st).dirOnceDone = true := by
    rw [h1]
  refine ⟨hdp, hdo, ?_, ?_⟩
  · intro okq q n2
    exact setDir_once_done okq q n2 _ hdo
  · intro ops st2 h2
    obtain ⟨g1, g2⟩ := run_dirOnce ops _ st2 hdo h2
    rw [g2]
    exact hdp

/-- Witness for `c10_setdir_latch_consumed_on_failure`: after the failed
`SetDir`, a write runs and the directory is still unset. -/
theorem c10_setdir_latch_consumed_on_failure_witness :
    (runOkSt
      (run [Op.opPrintln true sampleTime .info ["x"]]
        (setDir false "logs" sampleTime (initialState sampleTime)))
      (initialState sampleTime)).dirPath = "" :=
  (c10_setdir_latch_consumed_on_failure (initialState sampleTime) "logs"
    sampleTime (by decide) (by rfl) (by rfl) (by rfl)).2.2.2
    [Op.opPrintln true sampleTime .info ["x"]]
    (runOkSt
      (run [Op.opPrintln true sampleTime .info ["x"]]
        (setDir false "logs" sampleTime (initialState sampleTime)))
      (initialState sampleTime))
    (by rfl)

end GoLogger
